import Mathlib

/-!
Verification of the CSV-comparison script (`src/main.py`).

The script has two importers (`importar_csv_osciloscopio`,
`importar_csv_simulador`) built on `pandas.read_csv`, and a driver `main`
that plots the imported tables together with a closed-form analytic curve.

Shallow embedding choices:
* a file is `Option (List String)` — `none` models a missing file
  (`FileNotFoundError`), `some lines` the file's lines;
* a `DataFrame` is a list of column labels plus a list of rows of cells;
* a cell is a parsed rational number, a string, or NaN (missing value);
* `read_csv` models `pd.read_csv(arquivo, sep=sep, decimal=",")`:
  the first line is the header, blank data lines are skipped, a data row
  with more fields than the header is a parse error, shorter rows are
  padded with NaN, and a column is numeric exactly when every one of its
  fields is empty or parses under the decimal-comma grammar (pandas infers
  dtype per column).  The pandas corner case in which every data row has
  exactly one extra field (first column becomes the index) is not modelled;
* raising inside the `try` block is `Except.error`; the importer wrappers
  return the resulting table together with the list of lines printed to
  standard output;
* the analytic curves use `Real.exp` (the floating-point evaluation of
  `numpy.exp` is idealised as real arithmetic).
-/

namespace Graficos

/-- A cell of a DataFrame: a parsed number, a string, or NaN (missing). -/
inductive Cell where
  | num (q : ℚ)
  | str (s : String)
  | nan
deriving DecidableEq

/-- A pandas DataFrame: column labels plus rows of cells. -/
structure DataFrame where
  columns : List String
  rows : List (List Cell)
deriving DecidableEq

/-- `pd.DataFrame()`: the empty table, zero rows and zero columns. -/
def emptyDataFrame : DataFrame := ⟨[], []⟩

/-- Split a character list at every occurrence of the separator character. -/
def splitFields (sep : Char) : List Char → List (List Char)
  | [] => [[]]
  | c :: cs =>
    let r := splitFields sep cs
    if c = sep then [] :: r else (c :: r.headD []) :: r.tail

/-- Split a string into fields at the separator character (models the field
splitting of `read_csv` for the one-character separators used here). -/
def splitOnChar (sep : Char) (s : String) : List String :=
  (splitFields sep s.data).map (fun cs => ⟨cs⟩)

/-- Numeric value of a list of decimal digits. -/
def digitsVal (cs : List Char) : ℕ :=
  cs.foldl (fun acc c => 10 * acc + (c.toNat - Char.toNat '0')) 0

/-- Numeric parse of one field under `decimal=","`: an optional sign followed
by digits with at most one decimal comma.  `none` when not numeric. -/
def parseField (s : String) : Option ℚ :=
  let cs := s.data
  let neg : Bool := match cs with
    | c :: _ => c = '-'
    | [] => false
  let ds : List Char := match cs with
    | c :: r => if c = '-' ∨ c = '+' then r else cs
    | [] => cs
  if (ds.all fun c => c.isDigit || c = ',') ∧
      (ds.count (',')) ≤ 1 ∧ (ds.any Char.isDigit) then
    let ip := ds.takeWhile (fun c => c ≠ ',')
    let fp := (ds.dropWhile (fun c => c ≠ ',')).drop 1
    let n : ℤ := Int.ofNat (digitsVal ip * 10 ^ fp.length + digitsVal fp)
    some (mkRat (if neg then -n else n) (10 ^ fp.length))
  else none

/-- The cell stored for one raw field, given whether the field's whole column
was inferred numeric. -/
def cellFor (numeric : Bool) (s : String) : Cell :=
  if s = "" then .nan
  else if numeric then
    match parseField s with
    | some q => .num q
    | none => .nan
  else .str s

/-- Raw field rows of the data lines: blank lines are skipped (pandas
`skip_blank_lines`), the rest are split at the separator. -/
def rawRows (sep : Char) (dataLines : List String) : List (List String) :=
  (dataLines.filter (fun l => l != "")).map (fun l => splitOnChar sep l)

/-- Whether column `j` of the raw rows is numeric: every present field is
empty or parses under the decimal-comma grammar (absent fields count as
empty, i.e. NaN). -/
def colNumeric (raw : List (List String)) (j : ℕ) : Bool :=
  raw.all (fun r => (r.getD j "") == "" || (parseField (r.getD j "")).isSome)

/-- Parsed cell rows for a table of `n` columns: each raw row is padded to
`n` fields (missing fields become NaN) and parsed column-wise. -/
def buildRows (n : ℕ) (raw : List (List String)) : List (List Cell) :=
  raw.map (fun r => (List.range n).map (fun j => cellFor (colNumeric raw j) (r.getD j "")))

/-- The parsed data rows of a CSV file (header on the first line). -/
def csvRows (sep : Char) (lines : List String) : List (List Cell) :=
  match lines with
  | [] => []
  | header :: dataLines =>
    buildRows (splitOnChar sep header).length (rawRows sep dataLines)

/-- Model of `pd.read_csv(arquivo, sep=sep, decimal=",")`.  `none` is a
missing file; an empty file raises `EmptyDataError`; a data row with more
fields than the header raises a tokenizing error. -/
def read_csv (sep : Char) (file : Option (List String)) : Except String DataFrame :=
  match file with
  | none => .error "FileNotFoundError"
  | some [] => .error "No columns to parse from file"
  | some (header :: dataLines) =>
    if (rawRows sep dataLines).any
        (fun r => (splitOnChar sep header).length < r.length) then
      .error "Error tokenizing data"
    else
      .ok ⟨splitOnChar sep header, csvRows sep (header :: dataLines)⟩

/-- Model of the assignment `df.columns = names`: raises `ValueError` on a
length mismatch, as pandas does. -/
def setColumns (names : List String) (df : DataFrame) : Except String DataFrame :=
  if names.length = df.columns.length then
    .ok ⟨names, df.rows⟩
  else
    .error ("Length mismatch: Expected axis has " ++ toString df.columns.length ++
      " elements, new values have " ++ toString names.length ++ " elements")

/-- Model of `df[df.columns[0:n]]`: keep the first `n` columns. -/
def takeCols (n : ℕ) (df : DataFrame) : DataFrame :=
  ⟨df.columns.take n, df.rows.map (fun r => r.take n)⟩

/-- Model of `df.drop(columns=df.columns[0:n])`: drop the first `n` columns. -/
def dropCols (n : ℕ) (df : DataFrame) : DataFrame :=
  ⟨df.columns.drop n, df.rows.map (fun r => r.drop n)⟩

/-- Model of `df.dropna()`: drop every row containing a missing value. -/
def dropna (df : DataFrame) : DataFrame :=
  ⟨df.columns, df.rows.filter (fun r => r.all (fun c => c != Cell.nan))⟩

/-- The `try` block of `importar_csv_osciloscopio` (src/main.py lines 16-24):
read with `sep=";"`, slice the first two columns into `infos`, drop the
first three columns, rename the remainder to `tempo`/`tensao`, then clean
and rename `infos` (whose result is discarded), and return the main table.
Any raise inside the block is an `Except.error`. -/
def importar_csv_osciloscopio_try (file : Option (List String)) :
    Except String DataFrame :=
  match read_csv (';') file with
  | .error e => .error e
  | .ok df0 =>
    match setColumns ["tempo", "tensao"] (dropCols 3 df0) with
    | .error e => .error e
    | .ok df2 =>
      match setColumns ["parametro", "valor"] (dropna (takeCols 2 df0)) with
      | .error e => .error e
      | .ok _ => .ok df2

/-- Model of `importar_csv_osciloscopio`: the returned table together with
the diagnostic lines printed to standard output (src/main.py lines 16-27). -/
def importar_csv_osciloscopio (file : Option (List String)) :
    DataFrame × List String :=
  match importar_csv_osciloscopio_try file with
  | .ok df => (df, [])
  | .error e => (emptyDataFrame, ["Erro ao importar o arquivo: " ++ e])

/-- The oscilloscope importer's `try` block with the `infos` side computation
removed (the comparison point for the dead-computation claim). -/
def importar_csv_osciloscopio_sem_infos_try (file : Option (List String)) :
    Except String DataFrame :=
  match read_csv (';') file with
  | .error e => .error e
  | .ok df0 => setColumns ["tempo", "tensao"] (dropCols 3 df0)

/-- The oscilloscope importer with the `infos` computation removed. -/
def importar_csv_osciloscopio_sem_infos (file : Option (List String)) :
    DataFrame × List String :=
  match importar_csv_osciloscopio_sem_infos_try file with
  | .ok df => (df, [])
  | .error e => (emptyDataFrame, ["Erro ao importar o arquivo: " ++ e])

/-- The `try` block of `importar_csv_simulador` (src/main.py lines 40-45):
read with `sep="\t"` and rename both columns to `tempo`/`tensao`. -/
def importar_csv_simulador_try (file : Option (List String)) :
    Except String DataFrame :=
  match read_csv ('\t') file with
  | .error e => .error e
  | .ok df0 => setColumns ["tempo", "tensao"] df0

/-- Model of `importar_csv_simulador`: the returned table together with the
diagnostic lines printed to standard output (src/main.py lines 40-48). -/
def importar_csv_simulador (file : Option (List String)) :
    DataFrame × List String :=
  match importar_csv_simulador_try file with
  | .ok df => (df, [])
  | .error e => (emptyDataFrame, ["Erro ao importar o arquivo: " ++ e])

/-- Model of `df.plot(x=x, y=y, ...)`: raises a `KeyError` naming the first
missing column, otherwise draws (no observable result). -/
def plotCall (x y : String) (df : DataFrame) : Except String Unit :=
  if x ∈ df.columns then
    if y ∈ df.columns then .ok () else .error ("KeyError: " ++ y)
  else .error ("KeyError: " ++ x)

/-- Model of the driver `main` (src/main.py lines 51-90): the file system is
a map from path to optional content; the four import-then-plot steps run in
program order, and an uncaught `KeyError` from a plot call propagates out. -/
def mainProg (fs : String → Option (List String)) : Except String Unit :=
  match plotCall "tempo" "tensao" (importar_csv_simulador (fs "dados/V1.txt")).1 with
  | .error e => .error e
  | .ok _ =>
    match plotCall "tempo" "tensao"
        (importar_csv_osciloscopio (fs "dados/Osciloscópio - F0000CH2.csv")).1 with
    | .error e => .error e
    | .ok _ =>
      match plotCall "tempo" "tensao" (importar_csv_simulador (fs "dados/V2.txt")).1 with
      | .error e => .error e
      | .ok _ =>
        match plotCall "tempo" "tensao"
            (importar_csv_osciloscopio (fs "dados/Osciloscópio - F0000CH1.csv")).1 with
        | .error e => .error e
        | .ok _ => .ok ()

/-- The channel 1 analytic curve of the driver (src/main.py line 66):
`tensao = 1 - 0.993 * np.exp(-tempo * 4.51) - 0.0063 * np.exp(-tempo * 10.08)`. -/
noncomputable def tensao_analitica_v1 (t : ℝ) : ℝ :=
  1 - 0.993 * Real.exp (-t * 4.51) - 0.0063 * Real.exp (-t * 10.08)

/-- A well-formed CSV body: nonempty, no blank data line, and every data
line has exactly as many fields as the header line. -/
def wellFormed (sep : Char) (lines : List String) : Bool :=
  match lines with
  | [] => false
  | header :: dataLines =>
    dataLines.all
      (fun l => (l != "") && ((splitOnChar sep l).length == (splitOnChar sep header).length))

/-- The number of columns of a CSV file: the field count of its header. -/
def headerCount (sep : Char) (lines : List String) : ℕ :=
  match lines with
  | [] => 0
  | header :: _ => (splitOnChar sep header).length


/-! ### General lemmas about the embedded operations -/

theorem wellFormed_spec {sep : Char} {header : String} {dataLines : List String}
    (hw : wellFormed sep (header :: dataLines) = true) :
    ∀ l ∈ dataLines, l ≠ "" ∧ (splitOnChar sep l).length = (splitOnChar sep header).length := by
  intro l hl
  unfold wellFormed at hw
  rw [List.all_eq_true] at hw
  have h := hw l hl
  simp only [Bool.and_eq_true, bne_iff_ne, beq_iff_eq, ne_eq] at h
  exact h

theorem rawRows_eq_map {sep : Char} {header : String} {dataLines : List String}
    (hw : wellFormed sep (header :: dataLines) = true) :
    rawRows sep dataLines = dataLines.map (fun l => splitOnChar sep l) := by
  unfold rawRows
  have hf : dataLines.filter (fun l => l != "") = dataLines := by
    rw [List.filter_eq_self]
    intro l hl
    simpa using (wellFormed_spec hw l hl).1
  rw [hf]

theorem read_csv_wellFormed {sep : Char} {header : String} {dataLines : List String}
    (hw : wellFormed sep (header :: dataLines) = true) :
    read_csv sep (some (header :: dataLines)) =
      Except.ok ⟨splitOnChar sep header, csvRows sep (header :: dataLines)⟩ := by
  simp only [read_csv]
  split
  · rename_i hcontra
    exfalso
    rw [List.any_eq_true] at hcontra
    obtain ⟨r, hr, hlt⟩ := hcontra
    rw [rawRows_eq_map hw] at hr
    obtain ⟨l, hl, rfl⟩ := List.mem_map.mp hr
    rw [decide_eq_true_eq] at hlt
    rw [(wellFormed_spec hw l hl).2] at hlt
    exact lt_irrefl _ hlt
  · rfl

theorem csvRows_length_wf {sep : Char} {header : String} {dataLines : List String}
    (hw : wellFormed sep (header :: dataLines) = true) :
    (csvRows sep (header :: dataLines)).length = dataLines.length := by
  simp only [csvRows, buildRows]
  rw [rawRows_eq_map hw]
  simp

theorem setColumns_eq_ok {names : List String} {df df2 : DataFrame} :
    setColumns names df = Except.ok df2 ↔
      names.length = df.columns.length ∧ df2 = ⟨names, df.rows⟩ := by
  unfold setColumns
  split
  · rename_i h
    simp only [Except.ok.injEq, h, true_and]
    exact eq_comm
  · rename_i h
    simp only [reduceCtorEq, false_iff, not_and]
    intro hlen
    exact absurd hlen h

theorem setColumns_error {names : List String} {df : DataFrame}
    (h : names.length ≠ df.columns.length) :
    ∃ e, setColumns names df = Except.error e := by
  unfold setColumns
  rw [if_neg h]
  exact ⟨_, rfl⟩

theorem read_csv_ok_inv {sep : Char} {file : Option (List String)} {df0 : DataFrame}
    (h : read_csv sep file = Except.ok df0) :
    ∃ header dataLines, file = some (header :: dataLines) ∧
      df0 = ⟨splitOnChar sep header, csvRows sep (header :: dataLines)⟩ := by
  rcases file with _ | lines
  · simp [read_csv] at h
  · rcases lines with _ | ⟨header, dataLines⟩
    · simp [read_csv] at h
    · refine ⟨header, dataLines, rfl, ?_⟩
      simp only [read_csv] at h
      split at h
      · exact Except.noConfusion h
      · exact (Except.ok.inj h).symm

theorem osciloscopio_try_five {header : String} {dataLines : List String}
    (hw : wellFormed ';' (header :: dataLines) = true)
    (h5 : (splitOnChar ';' header).length = 5) :
    importar_csv_osciloscopio_try (some (header :: dataLines)) =
      Except.ok ⟨["tempo", "tensao"],
        (csvRows ';' (header :: dataLines)).map (fun r => r.drop 3)⟩ := by
  have hr := read_csv_wellFormed hw
  have h1 : setColumns ["tempo", "tensao"]
      (dropCols 3 ⟨splitOnChar ';' header, csvRows ';' (header :: dataLines)⟩) =
      Except.ok ⟨["tempo", "tensao"],
        (csvRows ';' (header :: dataLines)).map (fun r => r.drop 3)⟩ := by
    refine setColumns_eq_ok.mpr ⟨?_, rfl⟩
    simp [dropCols, h5]
  have h2 : ∃ df2, setColumns ["parametro", "valor"]
      (dropna (takeCols 2 ⟨splitOnChar ';' header,
        csvRows ';' (header :: dataLines)⟩)) = Except.ok df2 := by
    refine ⟨_, setColumns_eq_ok.mpr ⟨?_, rfl⟩⟩
    simp [dropna, takeCols, h5]
  obtain ⟨df2, h2⟩ := h2
  unfold importar_csv_osciloscopio_try
  simp only [hr, h1, h2]

theorem osciloscopio_try_not_five {header : String} {dataLines : List String}
    (hw : wellFormed ';' (header :: dataLines) = true)
    (h5 : (splitOnChar ';' header).length ≠ 5) :
    ∃ e, importar_csv_osciloscopio_try (some (header :: dataLines)) = Except.error e := by
  have hr := read_csv_wellFormed hw
  have h1 : ∃ e, setColumns ["tempo", "tensao"]
      (dropCols 3 ⟨splitOnChar ';' header, csvRows ';' (header :: dataLines)⟩) =
      Except.error e := by
    apply setColumns_error
    simp only [dropCols, List.length_drop, List.length_cons, List.length_nil]
    omega
  obtain ⟨e, h1⟩ := h1
  refine ⟨e, ?_⟩
  unfold importar_csv_osciloscopio_try
  simp only [hr, h1]

theorem simulador_try_two {header : String} {dataLines : List String}
    (hw : wellFormed '\t' (header :: dataLines) = true)
    (h2 : (splitOnChar '\t' header).length = 2) :
    importar_csv_simulador_try (some (header :: dataLines)) =
      Except.ok ⟨["tempo", "tensao"], csvRows '\t' (header :: dataLines)⟩ := by
  have hr := read_csv_wellFormed hw
  have h1 : setColumns ["tempo", "tensao"]
      (⟨splitOnChar '\t' header, csvRows '\t' (header :: dataLines)⟩ : DataFrame) =
      Except.ok ⟨["tempo", "tensao"], csvRows '\t' (header :: dataLines)⟩ := by
    refine setColumns_eq_ok.mpr ⟨?_, rfl⟩
    simp [h2]
  unfold importar_csv_simulador_try
  simp only [hr, h1]

theorem osciloscopio_try_ok_inv {file : Option (List String)} {df : DataFrame}
    (h : importar_csv_osciloscopio_try file = Except.ok df) :
    ∃ lines, file = some lines ∧ df.columns = ["tempo", "tensao"] ∧
      df.rows = (csvRows ';' lines).map (fun r => r.drop 3) := by
  unfold importar_csv_osciloscopio_try at h
  split at h
  · exact Except.noConfusion h
  · rename_i df0 heqrc
    split at h
    · exact Except.noConfusion h
    · rename_i df2 heq2
      split at h
      · exact Except.noConfusion h
      · obtain ⟨header, dataLines, rfl, rfl⟩ := read_csv_ok_inv heqrc
        obtain ⟨hlen, rfl⟩ := setColumns_eq_ok.mp heq2
        obtain rfl := Except.ok.inj h
        exact ⟨header :: dataLines, rfl, rfl, rfl⟩

theorem simulador_try_ok_inv {file : Option (List String)} {df : DataFrame}
    (h : importar_csv_simulador_try file = Except.ok df) :
    ∃ lines, file = some lines ∧ df.columns = ["tempo", "tensao"] ∧
      df.rows = csvRows '\t' lines := by
  unfold importar_csv_simulador_try at h
  split at h
  · exact Except.noConfusion h
  · rename_i df0 heqrc
    obtain ⟨header, dataLines, rfl, rfl⟩ := read_csv_ok_inv heqrc
    obtain ⟨hlen, rfl⟩ := setColumns_eq_ok.mp h
    exact ⟨header :: dataLines, rfl, rfl, rfl⟩

theorem plotCall_empty :
    plotCall "tempo" "tensao" emptyDataFrame = Except.error "KeyError: tempo" := rfl

theorem plotCall_ok {df : DataFrame} (h : df.columns = ["tempo", "tensao"]) :
    plotCall "tempo" "tensao" df = Except.ok () := by
  unfold plotCall
  rw [h]
  rfl

theorem simulador_result_cases (file : Option (List String)) :
    (importar_csv_simulador file).1 = emptyDataFrame ∨
      (importar_csv_simulador file).1.columns = ["tempo", "tensao"] := by
  unfold importar_csv_simulador
  cases h : importar_csv_simulador_try file with
  | error e => exact Or.inl rfl
  | ok df =>
    obtain ⟨lines, hfile, hcols, hrows⟩ := simulador_try_ok_inv h
    exact Or.inr hcols

theorem osciloscopio_result_cases (file : Option (List String)) :
    (importar_csv_osciloscopio file).1 = emptyDataFrame ∨
      (importar_csv_osciloscopio file).1.columns = ["tempo", "tensao"] := by
  unfold importar_csv_osciloscopio
  cases h : importar_csv_osciloscopio_try file with
  | error e => exact Or.inl rfl
  | ok df =>
    obtain ⟨lines, hfile, hcols, hrows⟩ := osciloscopio_try_ok_inv h
    exact Or.inr hcols

theorem emptyDataFrame_columns_ne :
    emptyDataFrame.columns ≠ ["tempo", "tensao"] := by decide


/-! ### Claim theorems -/

/-- C1 counterexample: on the spec's 4-column oscilloscope file
`"a;b;t;v\n1,0;x,0;0,0;0,5\n"` the importer does NOT return a one-row table
with time 0.0 and voltage 0.5: dropping the first three of four columns
leaves one column, the rename to two names fails, and the importer returns
the empty zero-row, zero-column table. -/
theorem c1_quatro_colunas_contraexemplo :
    (importar_csv_osciloscopio (some ["a;b;t;v", "1,0;x,0;0,0;0,5"])).1 = emptyDataFrame ∧
    ((importar_csv_osciloscopio (some ["a;b;t;v", "1,0;x,0;0,0;0,5"])).1.rows).length ≠ 1 := by
  decide

/-- C1 (amended): on the 4-column file `"a;b;t;v\n1,0;x,0;0,0;0,5\n"` the
oscilloscope importer returns the empty table plus one length-mismatch
diagnostic; the one-row result with time 0.0 and voltage 0.5 arises for the
corresponding 5-column file `"a;b;c;t;v\n1,0;x,0;y;0,0;0,5\n"`. -/
theorem c1_cenario_emendado :
    importar_csv_osciloscopio (some ["a;b;t;v", "1,0;x,0;0,0;0,5"]) =
      (emptyDataFrame,
        ["Erro ao importar o arquivo: Length mismatch: Expected axis has 1 elements, new values have 2 elements"]) ∧
    importar_csv_osciloscopio (some ["a;b;c;t;v", "1,0;x,0;y;0,0;0,5"]) =
      (⟨["tempo", "tensao"], [[Cell.num (mkRat 0 1), Cell.num (mkRat 1 2)]]⟩, []) ∧
    (mkRat 0 1 : ℚ) = 0 ∧ (mkRat 1 2 : ℚ) = 1 / 2 := by
  refine ⟨by decide, by decide, ?_, ?_⟩
  · rw [Rat.mkRat_eq_divInt, Rat.divInt_eq_div]
    norm_num
  · rw [Rat.mkRat_eq_divInt, Rat.divInt_eq_div]
    norm_num

/-- C2 counterexample: a well-formed oscilloscope input with 3 columns (so,
at least 3) yields the empty zero-column table, not a two-column
`tempo`/`tensao` table with the input's row count. -/
theorem c2_tres_colunas_contraexemplo :
    wellFormed ';' ["a;b;c", "1;2;3"] = true ∧
    headerCount ';' ["a;b;c", "1;2;3"] = 3 ∧
    (importar_csv_osciloscopio (some ["a;b;c", "1;2;3"])).1 = emptyDataFrame := by
  decide

/-- C2 (amended): for every well-formed oscilloscope input with exactly 5
columns, the importer returns a table with exactly the two columns `tempo`
and `tensao` (the source's rendering of the normalized `time`/`voltage`
names), in that order, with output row count equal to the input data row
count, and prints nothing. -/
theorem c2_cinco_colunas (header : String) (dataLines : List String)
    (hw : wellFormed ';' (header :: dataLines) = true)
    (h5 : headerCount ';' (header :: dataLines) = 5) :
    (importar_csv_osciloscopio (some (header :: dataLines))).1.columns = ["tempo", "tensao"] ∧
    (importar_csv_osciloscopio (some (header :: dataLines))).1.rows.length = dataLines.length ∧
    (importar_csv_osciloscopio (some (header :: dataLines))).2 = [] := by
  have h5x : (splitOnChar ';' header).length = 5 := h5
  have ht := osciloscopio_try_five hw h5x
  unfold importar_csv_osciloscopio
  simp [ht, csvRows_length_wf hw]

/-- C2 witness: the amended theorem applied to a concrete well-formed
5-column input with one data row. -/
theorem c2_cinco_colunas_witness :
    (importar_csv_osciloscopio (some ["a;b;c;d;e", "1;2;3;4;5"])).1.columns = ["tempo", "tensao"] ∧
    (importar_csv_osciloscopio (some ["a;b;c;d;e", "1;2;3;4;5"])).1.rows.length =
      ["1;2;3;4;5"].length ∧
    (importar_csv_osciloscopio (some ["a;b;c;d;e", "1;2;3;4;5"])).2 = [] :=
  c2_cinco_colunas "a;b;c;d;e" ["1;2;3;4;5"] (by decide) (by decide)

/-- C3: for every well-formed simulator input with exactly 2 columns, the
importer returns the parsed input table unchanged except that its two
columns are renamed to `tempo`/`tensao` (the source's `time`/`voltage`):
the cell rows are exactly the parsed rows of the file, the row count equals
the input data row count, and nothing is printed. -/
theorem c3_simulador_renomeia (header : String) (dataLines : List String)
    (hw : wellFormed '\t' (header :: dataLines) = true)
    (h2 : headerCount '\t' (header :: dataLines) = 2) :
    importar_csv_simulador (some (header :: dataLines)) =
      (⟨["tempo", "tensao"], csvRows '\t' (header :: dataLines)⟩, []) ∧
    (csvRows '\t' (header :: dataLines)).length = dataLines.length := by
  have h2x : (splitOnChar '\t' header).length = 2 := h2
  have ht := simulador_try_two hw h2x
  constructor
  · unfold importar_csv_simulador
    simp only [ht]
  · exact csvRows_length_wf hw

/-- C3 witness: the theorem applied to a concrete two-column tab-separated
input with one data row. -/
theorem c3_simulador_renomeia_witness :
    importar_csv_simulador (some ["t\tv", "0,0\t0,5"]) =
      (⟨["tempo", "tensao"], csvRows '\t' ["t\tv", "0,0\t0,5"]⟩, []) ∧
    (csvRows '\t' ["t\tv", "0,0\t0,5"]).length = ["0,0\t0,5"].length :=
  c3_simulador_renomeia "t\tv" ["0,0\t0,5"] (by decide) (by decide)

/-- C4: a decimal-comma field `"1,23"` parses to the rational 123/100 = 1.23
(neither a string nor the integer 123), and both importers store that
numeric value for such a field, as shown end to end on a simulator file and
an oscilloscope file containing the field `"1,23"`. -/
theorem c4_virgula_decimal :
    parseField "1,23" = some (mkRat 123 100) ∧
    (mkRat 123 100 : ℚ) = 123 / 100 ∧
    (mkRat 123 100 : ℚ) ≠ 123 ∧
    importar_csv_simulador (some ["t\tv", "1,23\t2"]) =
      (⟨["tempo", "tensao"], [[Cell.num (mkRat 123 100), Cell.num (mkRat 2 1)]]⟩, []) ∧
    importar_csv_osciloscopio (some ["a;b;c;t;v", "0;0;0;1,23;2"]) =
      (⟨["tempo", "tensao"], [[Cell.num (mkRat 123 100), Cell.num (mkRat 2 1)]]⟩, []) := by
  refine ⟨by decide, ?_, ?_, by decide, by decide⟩
  · rw [Rat.mkRat_eq_divInt, Rat.divInt_eq_div]
    norm_num
  · rw [Rat.mkRat_eq_divInt, Rat.divInt_eq_div]
    norm_num

/-- C5: importing a missing file (`none`) returns the zero-row, zero-column
table and prints exactly one diagnostic line, for both importers; moreover
each importer is a total function that never prints more than one line on
any input (no exception escapes: every result is a table plus diagnostics). -/
theorem c5_arquivo_inexistente :
    importar_csv_osciloscopio none =
      (emptyDataFrame, ["Erro ao importar o arquivo: FileNotFoundError"]) ∧
    importar_csv_simulador none =
      (emptyDataFrame, ["Erro ao importar o arquivo: FileNotFoundError"]) ∧
    emptyDataFrame.columns.length = 0 ∧ emptyDataFrame.rows.length = 0 ∧
    (∀ file, ((importar_csv_osciloscopio file).2).length ≤ 1) ∧
    (∀ file, ((importar_csv_simulador file).2).length ≤ 1) := by
  refine ⟨rfl, rfl, rfl, rfl, ?_, ?_⟩
  · intro file
    unfold importar_csv_osciloscopio
    cases importar_csv_osciloscopio_try file <;> simp
  · intro file
    unfold importar_csv_simulador
    cases importar_csv_simulador_try file <;> simp

/-- C6: the channel 1 analytic curve is
`voltage(t) = 1 − 0.993·e^(−4.51t) − 0.0063·e^(−10.08t)`; its value at
`t = 0` is exactly `1 − 0.993 − 0.0063 = 0.0007` and it tends to `1` as
`t → ∞` (real-number idealisation of the numpy float evaluation). -/
theorem c6_analitico_v1 :
    tensao_analitica_v1 0 = 0.0007 ∧
    Filter.Tendsto tensao_analitica_v1 Filter.atTop (nhds 1) := by
  constructor
  · unfold tensao_analitica_v1
    norm_num [Real.exp_zero]
  · have hA : Filter.Tendsto (fun t : ℝ => Real.exp (-t * 4.51)) Filter.atTop (nhds 0) :=
      Real.tendsto_exp_atBot.comp
        (Filter.tendsto_neg_atTop_atBot.atBot_mul_const (by norm_num : (0:ℝ) < 4.51))
    have hB : Filter.Tendsto (fun t : ℝ => Real.exp (-t * 10.08)) Filter.atTop (nhds 0) :=
      Real.tendsto_exp_atBot.comp
        (Filter.tendsto_neg_atTop_atBot.atBot_mul_const (by norm_num : (0:ℝ) < 10.08))
    have h2 : Filter.Tendsto
        (fun t : ℝ => 1 - 0.993 * Real.exp (-t * 4.51) - 0.0063 * Real.exp (-t * 10.08))
        Filter.atTop (nhds (1 - 0.993 * 0 - 0.0063 * 0)) :=
      (tendsto_const_nhds.sub (hA.const_mul _)).sub (hB.const_mul _)
    have h3 : (1 : ℝ) - 0.993 * 0 - 0.0063 * 0 = 1 := by norm_num
    rw [h3] at h2
    exact h2

/-- C7: the `infos` metadata side-table built inside the oscilloscope
importer is dead: for every input, the importer returns exactly the same
table and diagnostics as the variant with the `infos` computation removed. -/
theorem c7_infos_morta (file : Option (List String)) :
    importar_csv_osciloscopio file = importar_csv_osciloscopio_sem_infos file := by
  suffices h : importar_csv_osciloscopio_try file = importar_csv_osciloscopio_sem_infos_try file by
    unfold importar_csv_osciloscopio importar_csv_osciloscopio_sem_infos
    rw [h]
  unfold importar_csv_osciloscopio_try importar_csv_osciloscopio_sem_infos_try
  cases hrc : read_csv ';' file with
  | error e => rfl
  | ok df0 =>
    show (match setColumns ["tempo", "tensao"] (dropCols 3 df0) with
      | .error e => .error e
      | .ok df2 =>
        match setColumns ["parametro", "valor"] (dropna (takeCols 2 df0)) with
        | .error e => .error e
        | .ok _ => .ok df2) =
      setColumns ["tempo", "tensao"] (dropCols 3 df0)
    cases hsc : setColumns ["tempo", "tensao"] (dropCols 3 df0) with
    | error e => rfl
    | ok df2 =>
      have hlen : ["tempo", "tensao"].length = (dropCols 3 df0).columns.length :=
        (setColumns_eq_ok.mp hsc).1
      simp only [dropCols, List.length_drop, List.length_cons, List.length_nil] at hlen
      have hinfos : ["parametro", "valor"].length = (dropna (takeCols 2 df0)).columns.length := by
        simp only [dropna, takeCols, List.length_take, List.length_cons, List.length_nil]
        omega
      obtain ⟨df3, h6⟩ : ∃ df3, setColumns ["parametro", "valor"] (dropna (takeCols 2 df0)) =
          Except.ok df3 := ⟨_, setColumns_eq_ok.mpr ⟨hinfos, rfl⟩⟩
      simp only [h6]

/-- C7 witness: the equivalence evaluated at a concrete input. -/
theorem c7_infos_morta_witness :
    importar_csv_osciloscopio (some ["a;b;c;t;v", "1,0;x,0;y;0,0;0,5"]) =
      importar_csv_osciloscopio_sem_infos (some ["a;b;c;t;v", "1,0;x,0;y;0,0;0,5"]) :=
  c7_infos_morta (some ["a;b;c;t;v", "1,0;x,0;y;0,0;0,5"])

/-- C8: whenever an importer's `try` block succeeds, the returned table has
exactly the two columns `tempo`/`tensao` and its rows are, in order, the
parsed rows of the input file (for the oscilloscope importer with the first
three fields of each row dropped), so row order matches file order. -/
theorem c8_ordem_das_linhas (linesO linesS : List String) (dfO dfS : DataFrame)
    (hO : importar_csv_osciloscopio_try (some linesO) = Except.ok dfO)
    (hS : importar_csv_simulador_try (some linesS) = Except.ok dfS) :
    dfO.columns = ["tempo", "tensao"] ∧
    dfO.rows = (csvRows ';' linesO).map (fun r => r.drop 3) ∧
    dfS.columns = ["tempo", "tensao"] ∧
    dfS.rows = csvRows '\t' linesS := by
  obtain ⟨lines1, hfile1, hc1, hr1⟩ := osciloscopio_try_ok_inv hO
  obtain ⟨lines2, hfile2, hc2, hr2⟩ := simulador_try_ok_inv hS
  obtain rfl : linesO = lines1 := Option.some.inj hfile1
  obtain rfl : linesS = lines2 := Option.some.inj hfile2
  exact ⟨hc1, hr1, hc2, hr2⟩

/-- C8 witness: both `try` blocks succeed on concrete inputs and the
conclusions hold there. -/
theorem c8_ordem_das_linhas_witness :
    (DataFrame.mk ["tempo", "tensao"] [[Cell.num (mkRat 4 1), Cell.num (mkRat 5 1)]]).columns =
      ["tempo", "tensao"] ∧
    (DataFrame.mk ["tempo", "tensao"] [[Cell.num (mkRat 4 1), Cell.num (mkRat 5 1)]]).rows =
      (csvRows ';' ["a;b;c;t;v", "1;2;3;4;5"]).map (fun r => r.drop 3) ∧
    (DataFrame.mk ["tempo", "tensao"] [[Cell.num (mkRat 1 1), Cell.num (mkRat 2 1)]]).columns =
      ["tempo", "tensao"] ∧
    (DataFrame.mk ["tempo", "tensao"] [[Cell.num (mkRat 1 1), Cell.num (mkRat 2 1)]]).rows =
      csvRows '\t' ["x\ty", "1\t2"] :=
  c8_ordem_das_linhas ["a;b;c;t;v", "1;2;3;4;5"] ["x\ty", "1\t2"] _ _ rfl rfl

/-- C9: if any of the four tables loaded by the driver is the empty
fallback table, the corresponding `df.plot(x="tempo", ...)` call raises a
`KeyError` for the missing `tempo` column, which no handler in the driver
catches, so `main` terminates with that error. -/
theorem c9_tabela_vazia_derruba_main (fs : String → Option (List String))
    (h : (importar_csv_simulador (fs "dados/V1.txt")).1 = emptyDataFrame ∨
         (importar_csv_osciloscopio (fs "dados/Osciloscópio - F0000CH2.csv")).1 = emptyDataFrame ∨
         (importar_csv_simulador (fs "dados/V2.txt")).1 = emptyDataFrame ∨
         (importar_csv_osciloscopio (fs "dados/Osciloscópio - F0000CH1.csv")).1 = emptyDataFrame) :
    mainProg fs = Except.error "KeyError: tempo" := by
  unfold mainProg
  rcases simulador_result_cases (fs "dados/V1.txt") with h1 | h1
  · rw [h1, plotCall_empty]
  · rw [plotCall_ok h1]
    rcases osciloscopio_result_cases (fs "dados/Osciloscópio - F0000CH2.csv") with h2 | h2
    · rw [h2, plotCall_empty]
    · rw [plotCall_ok h2]
      rcases simulador_result_cases (fs "dados/V2.txt") with h3 | h3
      · rw [h3, plotCall_empty]
      · rw [plotCall_ok h3]
        rcases osciloscopio_result_cases (fs "dados/Osciloscópio - F0000CH1.csv") with h4 | h4
        · rw [h4, plotCall_empty]
        · exfalso
          rcases h with h | h | h | h
          · rw [h] at h1
            exact emptyDataFrame_columns_ne h1
          · rw [h] at h2
            exact emptyDataFrame_columns_ne h2
          · rw [h] at h3
            exact emptyDataFrame_columns_ne h3
          · rw [h] at h4
            exact emptyDataFrame_columns_ne h4

/-- C9 witness: with every file missing, all importers fall back to the
empty table and `main` ends with the uncaught `KeyError`. -/
theorem c9_tabela_vazia_derruba_main_witness :
    mainProg (fun _ => none) = Except.error "KeyError: tempo" :=
  c9_tabela_vazia_derruba_main (fun _ => none) (Or.inl (by decide))

/-- C10: for every well-formed oscilloscope input, the importer yields the
normalized `tempo`/`tensao` table (with no diagnostic) exactly when the
input has 5 columns; for any other column count the rename fails, the
exception is caught, and the importer returns the empty zero-row,
zero-column table with one diagnostic line. -/
theorem c10_somente_cinco_colunas (header : String) (dataLines : List String)
    (hw : wellFormed ';' (header :: dataLines) = true) :
    (headerCount ';' (header :: dataLines) = 5 →
      (importar_csv_osciloscopio (some (header :: dataLines))).1.columns = ["tempo", "tensao"] ∧
      (importar_csv_osciloscopio (some (header :: dataLines))).2 = []) ∧
    (headerCount ';' (header :: dataLines) ≠ 5 →
      (importar_csv_osciloscopio (some (header :: dataLines))).1 = emptyDataFrame ∧
      ((importar_csv_osciloscopio (some (header :: dataLines))).2).length = 1) := by
  constructor
  · intro h5
    have h5x : (splitOnChar ';' header).length = 5 := h5
    have ht := osciloscopio_try_five hw h5x
    unfold importar_csv_osciloscopio
    simp [ht]
  · intro h5
    have h5x : (splitOnChar ';' header).length ≠ 5 := h5
    obtain ⟨e, ht⟩ := osciloscopio_try_not_five hw h5x
    unfold importar_csv_osciloscopio
    simp [ht]

/-- C10 witness: on the well-formed 4-column file of the end-to-end
scenario, the importer returns the empty table and one diagnostic. -/
theorem c10_somente_cinco_colunas_witness :
    (importar_csv_osciloscopio (some ["a;b;t;v", "1,0;x,0;0,0;0,5"])).1 = emptyDataFrame ∧
    ((importar_csv_osciloscopio (some ["a;b;t;v", "1,0;x,0;0,0;0,5"])).2).length = 1 :=
  (c10_somente_cinco_colunas "a;b;t;v" ["1,0;x,0;0,0;0,5"] (by decide)).2 (by decide)

end Graficos
